import Mathlib

/-!
Verification development for the interview-simulator server (`src/server.js`).

The server is a thin Express app holding per-session interview state.  We give a
shallow embedding of its data model and request handlers as pure Lean functions:
each handler takes the current session, the request body, the current clock
value(s) and the (opaque) replies of the external completion / TTS collaborator,
and returns the HTTP outcome together with the new session state and the
observable effects (prompts sent, summarizer input, spawned analysis task).

JavaScript-specific semantics that the handlers rely on are modelled
explicitly: a `Js` value type with JS truthiness, the `||` and `??` operators,
`String.prototype.trim` / `slice`, and the `extractJson` helper (a greedy
`[\s\S]` brace regex followed by `JSON.parse`).  `JSON.parse` is modelled by an
executable parser for the JSON fragment the development exercises (objects,
strings with common escapes, integers, booleans, null); JSON arrays, fractional
numbers and `\u` escapes are outside the modelled fragment (a reply using them
parses to a failure, i.e. to the empty object, like any other parse failure).
Character counts model JS string lengths (UTF-16 subtleties for astral-plane
characters are out of scope).
-/

/-- JavaScript values as far as the server observes them: `undefined`, `null`,
booleans, (integer) numbers, strings and objects.  Objects keep their key/value
pairs in source order; lookup takes the last binding, matching `JSON.parse`
overwrite semantics for duplicate keys. -/
inductive Js where
  | undefined : Js
  | null : Js
  | bool : Bool → Js
  | num : Int → Js
  | str : String → Js
  | obj : List (String × Js) → Js

/-- JS truthiness: `undefined`, `null`, `false`, `0` and the empty string are
falsy; every other modelled value (including every object) is truthy. -/
def jsTruthy : Js → Bool
  | .undefined => false
  | .null => false
  | .bool b => b
  | .num n => n != 0
  | .str s => s != ""
  | .obj _ => true

/-- Predicate for string-valued `Js` values. -/
def Js.isStr : Js → Bool
  | .str _ => true
  | _ => false

/-- Property lookup `v.k` on a JS value: `undefined` unless `v` is an object
with a binding for `k` (last binding wins, as in `JSON.parse`). -/
def jsLookup : Js → String → Js
  | .obj fields, k =>
    match fields.reverse.find? (fun p => p.1 == k) with
    | some p => p.2
    | none => .undefined
  | _, _ => .undefined

/-- JS `v || d`: `v` when truthy, else `d`. -/
def jsOr (v d : Js) : Js := if jsTruthy v then v else d

/-- JS nullish coalescing `v ?? d`: `d` only when `v` is `undefined` or
`null`. -/
def jsNullish (v d : Js) : Js :=
  match v with
  | .undefined => d
  | .null => d
  | _ => v

/-- JS `o || null` on an optional timestamp: `0` and `undefined` collapse to
`null` (models `req.session.current_question_started_at || null`). -/
def jsOrNullTime : Option Int → Option Int
  | none => none
  | some t => if t == 0 then none else some t

/-- Whitespace characters recognised by the modelled `trim` / `\s`. -/
def isWsC (c : Char) : Bool :=
  c == ' ' || c == '\n' || c == '\t' || c == '\r' || c == Char.ofNat 12 || c == Char.ofNat 11

/-- Model of `String.prototype.trim`, executable by kernel reduction. -/
def jsTrim (s : String) : String :=
  String.mk (((s.toList.dropWhile isWsC).reverse.dropWhile isWsC).reverse)

/-- Model of `s.slice(0, n)` for a nonnegative bound `n`. -/
def jsSlice (s : String) (n : Nat) : String :=
  String.mk (s.toList.take n)

/-- Counting helper for `wordsCount`: counts maximal runs of non-whitespace
characters; the flag records whether we are inside a run. -/
def wordsCountAux : Bool → List Char → Nat
  | _, [] => 0
  | inw, c :: rest =>
    if isWsC c then wordsCountAux false rest
    else (if inw then 0 else 1) + wordsCountAux true rest

/-- Embedding of `wordsCount` (server.js lines 68-73):
`String(s||'').trim().split(/\s+/).filter(Boolean).length`, i.e. the number of
maximal non-whitespace runs of the string. -/
def wordsCount (s : String) : Nat := wordsCountAux false s.toList

/- JSON parsing (model of `JSON.parse` on the modelled fragment). -/

/-- Opening brace character (code 123). -/
def lbrace : Char := Char.ofNat 123

/-- Closing brace character (code 125). -/
def rbrace : Char := Char.ofNat 125

/-- Double-quote character (code 34). -/
def quoteC : Char := Char.ofNat 34

/-- Skip JSON whitespace. -/
def skipWs : List Char → List Char
  | [] => []
  | c :: rest =>
    if c == ' ' || c == '\n' || c == '\t' || c == '\r' then skipWs rest else c :: rest

/-- Decode a single-character JSON escape; `\u` escapes are outside the
modelled fragment. -/
def unescapeC (c : Char) : Option Char :=
  if c == quoteC then some quoteC
  else if c == '\\' then some '\\'
  else if c == '/' then some '/'
  else if c == 'n' then some '\n'
  else if c == 't' then some '\t'
  else if c == 'r' then some '\r'
  else if c == 'b' then some (Char.ofNat 8)
  else if c == 'f' then some (Char.ofNat 12)
  else none

/-- Parse the body of a JSON string (after the opening quote), returning the
decoded string and the rest of the input after the closing quote. -/
def parseStringBody : List Char → Option (String × List Char)
  | [] => none
  | c :: rest =>
    if c == quoteC then some ("", rest)
    else if c == '\\' then
      match rest with
      | [] => none
      | e :: rest2 =>
        match unescapeC e with
        | none => none
        | some ch =>
          match parseStringBody rest2 with
          | none => none
          | some (s, r) => some (String.mk (ch :: s.toList), r)
    else
      match parseStringBody rest with
      | none => none
      | some (s, r) => some (String.mk (c :: s.toList), r)

/-- Split a leading run of decimal digits from the input. -/
def takeDigits : List Char → List Char × List Char
  | [] => ([], [])
  | c :: rest =>
    if c.isDigit then
      let p := takeDigits rest
      (c :: p.1, p.2)
    else ([], c :: rest)

/-- Numeric value of a digit run. -/
def digitsToNat (l : List Char) : Nat :=
  l.foldl (fun acc c => acc * 10 + (c.toNat - 48)) 0

/-- Parse a JSON integer literal (optional minus sign, no leading zeros),
returning its value and the rest of the input. -/
def parseIntLit : List Char → Option (Int × List Char)
  | [] => none
  | c :: rest =>
    if c == '-' then
      match takeDigits rest with
      | ([], _) => none
      | (d :: ds, r) =>
        if d == '0' && ds != [] then none
        else some (-(Int.ofNat (digitsToNat (d :: ds))), r)
    else
      match takeDigits (c :: rest) with
      | ([], _) => none
      | (d :: ds, r) =>
        if d == '0' && ds != [] then none
        else some (Int.ofNat (digitsToNat (d :: ds)), r)

/-- Intermediate result of `parseCore`: either a JSON value or the member list
of an object. -/
inductive PRes where
  | val : Js → PRes
  | fields : List (String × Js) → PRes

/-- Fuel-indexed JSON parser.  With the flag `false` it parses one JSON value;
with the flag `true` it parses a non-empty member list up to and including the
closing brace.  Structural recursion on the fuel keeps it kernel-reducible. -/
def parseCore : Nat → Bool → List Char → Option (PRes × List Char)
  | 0, _, _ => none
  | Nat.succ fuel, false, input =>
    match skipWs input with
    | [] => none
    | c :: rest =>
      if c == quoteC then
        match parseStringBody rest with
        | some (s, r) => some (.val (.str s), r)
        | none => none
      else if c == lbrace then
        match skipWs rest with
        | [] => none
        | d :: rest2 =>
          if d == rbrace then some (.val (.obj []), rest2)
          else
            match parseCore fuel true (d :: rest2) with
            | some (.fields fs, r) => some (.val (.obj fs), r)
            | _ => none
      else if c == '-' || c.isDigit then
        match parseIntLit (c :: rest) with
        | some (n, r) => some (.val (.num n), r)
        | none => none
      else
        match c :: rest with
        | 'n' :: 'u' :: 'l' :: 'l' :: r => some (.val .null, r)
        | 't' :: 'r' :: 'u' :: 'e' :: r => some (.val (.bool true), r)
        | 'f' :: 'a' :: 'l' :: 's' :: 'e' :: r => some (.val (.bool false), r)
        | _ => none
  | Nat.succ fuel, true, input =>
    match skipWs input with
    | [] => none
    | c :: rest =>
      if c == quoteC then
        match parseStringBody rest with
        | none => none
        | some (k, r1) =>
          match skipWs r1 with
          | [] => none
          | d :: r2 =>
            if d == ':' then
              match parseCore fuel false r2 with
              | some (.val v, r3) =>
                match skipWs r3 with
                | [] => none
                | e :: r4 =>
                  if e == ',' then
                    match parseCore fuel true r4 with
                    | some (.fields fs, r5) => some (.fields ((k, v) :: fs), r5)
                    | _ => none
                  else if e == rbrace then some (.fields [(k, v)], r4)
                  else none
              | _ => none
            else none
      else none

/-- Model of `JSON.parse`: parse one value and require only whitespace to
remain. -/
def parseJson (s : String) : Option Js :=
  let cs := s.toList
  match parseCore (cs.length + 1) false cs with
  | some (.val v, r) => if skipWs r == [] then some v else none
  | _ => none

/-- Match of the greedy regex `/\x7b[\s\S]*\x7d/`: the substring from the first
opening brace to the last closing brace, provided the latter comes after the
former. -/
def regexBraceMatch (s : String) : Option String :=
  let cs := s.toList
  match cs.findIdx? (fun c => c == lbrace) with
  | none => none
  | some i =>
    match cs.reverse.findIdx? (fun c => c == rbrace) with
    | none => none
    | some rj =>
      let j := cs.length - 1 - rj
      if i < j then some (String.mk ((cs.drop i).take (j - i + 1))) else none

/-- Embedding of `extractJson` (server.js lines 58-66): scrape the brace-regex
match out of the reply and `JSON.parse` it; on no match or parse failure return
the empty object. -/
def extractJson (s : String) : Js :=
  match regexBraceMatch s with
  | none => .obj []
  | some sub =>
    match parseJson sub with
    | some v => v
    | none => .obj []

/- Data model (server.js session fields). -/

/-- Candidate profile, immutable once set by `/api/start`. -/
structure Profile where
  type : String
  resume : String
deriving DecidableEq

/-- One entry of `req.session.history` (server.js lines 269-276).  The
`question` field holds the raw JS value that was stored in
`current_question`; `weakness` starts as the placeholder and is overwritten by
the detached analysis task. -/
structure HistoryItem where
  question : Js
  answer : String
  weakness : String
  askedAt : Option Int
  answeredAt : Int
  source : String

/-- Server-side session state.  `profile` and `history` are absent
(`undefined`) until `/api/start` succeeds; `personality` is modelled as a
string with `""` standing for the unset value (both are JS-falsy, which is the
only way the code observes it). -/
structure Session where
  profile : Option Profile
  personality : String
  start_time : Int
  duration_seconds : Int
  history : Option (List HistoryItem)
  current_question : Option Js
  current_question_started_at : Option Int

/-- Truthiness of the `current_question` slot as the handlers test it
(`!req.session.current_question`): absent is falsy, a stored value is tested
with JS truthiness. -/
def cqTruthy : Option Js → Bool
  | none => false
  | some v => jsTruthy v

/-- Interview deadline `start_time + duration_seconds * 1000` in
milliseconds. -/
def endTimeOf (s : Session) : Int :=
  s.start_time + s.duration_seconds * 1000

/-- Embedding of `secondsLeft` (server.js lines 75-79):
`Math.max(0, Math.floor((endTime - now) / 1000))`. -/
def secondsLeft (s : Session) (now : Int) : Int :=
  max 0 ((endTimeOf s - now).fdiv 1000)

/- Prompt construction for question generation and summarization. -/

/-- One chat message sent to the completion collaborator. -/
structure Msg where
  role : String
  content : String
deriving DecidableEq

/-- Rendering of a history item inside prompt blocks (server.js lines 84-89 and
225-230): the template literal coerces the stored question to a string. -/
def jsTmpl : Js → String
  | .undefined => "undefined"
  | .null => "null"
  | .bool b => if b then "true" else "false"
  | .num n => toString n
  | .str s => s
  | .obj _ => "[object Object]"

/-- History item line used by both `summarizeOld` and the next-question
prompt: `Q: ...\nA: ...\nWeakness: ...` with the `|| 'Analyzing...'`
fallback. -/
def renderItem (h : HistoryItem) : String :=
  "Q: " ++ jsTmpl h.question ++ "\nA: " ++ h.answer ++ "\nWeakness: " ++
    (if h.weakness == "" then "Analyzing..." else h.weakness)

/-- Block of rendered history items joined by blank lines. -/
def renderBlock (l : List HistoryItem) : String :=
  String.intercalate "\n\n" (l.map renderItem)

/-- Prompt sent by `summarizeOld` for a non-empty batch of older items
(server.js lines 91-93). -/
def summarizeOldPrompt (l : List HistoryItem) : String :=
  "Summarize the following earlier interview exchanges (questions, answers, weaknesses) " ++
  "in two brief sentences, focusing on overall strengths and weaknesses:\n\n" ++ renderBlock l

/-- Embedding of `summarizeOld` (server.js lines 81-102): empty input yields
the empty synopsis without a collaborator call; otherwise the collaborator's
reply is trimmed.  The reply is a parameter since the collaborator is
opaque. -/
def summarizeOld (l : List HistoryItem) (reply : String) : String :=
  if l.isEmpty then "" else jsTrim reply

/-- System message of the next-question prompt (server.js lines 192-206). -/
def sysContent (personality typeText : String) (timeRemaining : Int) : String :=
  "You are a " ++ personality ++ " interviewer running a TIMED interview.\n" ++
  "Interview type: " ++ typeText ++ "\n" ++
  "Time remaining: " ++ toString timeRemaining ++ " seconds.\n\n" ++
  "You must ask EXACTLY ONE question at a time.\n\n" ++
  "Behavior rules:\n" ++
  "- If the candidate profile/answers are missing critical details needed to interview well (target role/title, level/seniority, location, availability, goals, key experience), ask a concise clarifying question first.\n" ++
  "- If time remaining is short (<= 120 seconds), ask ONLY the single highest-impact missing detail.\n" ++
  "- If the last answer was vague or lacked specifics (see weaknesses), ask a focused follow-up for details.\n" ++
  "- Otherwise, ask a professional, role-relevant interview question based on the candidate's resume and prior answers.\n" ++
  "- Avoid multi-part questions unless absolutely necessary.\n\n" ++
  "Output ONLY a JSON object with a single field: \"question\". No extra text."

/-- First user message of the next-question prompt (server.js lines 207-212). -/
def userProfileContent (resumeText : String) (profileSparse : Bool) : String :=
  "Candidate profile (resume / notes):\n" ++ resumeText ++ "\n\n" ++
  "Hint: profile_sparse=" ++ (if profileSparse then "true" else "false")

/-- Prompt assembly of the next-question handler (server.js lines 191-235),
returning the message list together with the batch of items handed to
`summarizeOld` (if any). -/
def buildPrompt (personality : String) (p : Profile) (timeRemaining : Int)
    (hist : List HistoryItem) (summarizerReply : String) :
    List Msg × Option (List HistoryItem) :=
  let resumeText := p.resume
  let typeText := p.type
  let profileSparse := wordsCount resumeText < 60 || wordsCount typeText < 2
  let base : List Msg :=
    [⟨"system", sysContent personality typeText timeRemaining⟩,
     ⟨"user", userProfileContent resumeText profileSparse⟩]
  let step :=
    if 0 < hist.length then
      let withSum :=
        if 5 < hist.length then
          (base ++ [⟨"user", "Brief summary of earlier exchanges:\n" ++
              summarizeOld (hist.take (hist.length - 5)) summarizerReply⟩],
           some (hist.take (hist.length - 5)))
        else (base, none)
      (withSum.1 ++ [⟨"user", "Last five Q&A and weaknesses:\n" ++
          renderBlock (hist.drop (hist.length - 5))⟩],
       withSum.2)
    else (base, none)
  (step.1 ++ [⟨"user", "Ask the next question now."⟩], step.2)

/- Request handlers. -/

/-- Outcome of `/api/start`. -/
inductive StartOutcome where
  | invalidInput : StartOutcome
  | success : StartOutcome
deriving DecidableEq

/-- Body of `/api/start`; `duration` is `none` when the field is missing or
not numeric (fractional durations are outside the modelled fragment). -/
structure StartReq where
  type : Option String
  resume : Option String
  duration : Option Int

/-- Embedding of `/api/start` (server.js lines 153-168).  The interviewer
personality is drawn by `getRandomPersonality`; the draw is a parameter here.
Note the handler does not touch `current_question_started_at`. -/
def startHandler (req : StartReq) (now : Int) (personality : String)
    (s : Session) : StartOutcome × Session :=
  match req.type, req.resume, req.duration with
  | some t, some r, some d =>
    if t == "" || r == "" || d ≤ 0 then (.invalidInput, s)
    else
      (.success,
       { s with
         profile := some ⟨t, r⟩
         duration_seconds := d * 60
         start_time := now
         personality := personality
         history := some []
         current_question := none })
  | _, _, _ => (.invalidInput, s)

/-- Outcome of `/api/next-question`. -/
inductive NQOutcome where
  | notStarted : NQOutcome
  | crash : NQOutcome
  | endSignal : NQOutcome
  | genFailed : NQOutcome
  | question : Js → NQOutcome

/-- Result of the next-question handler: HTTP outcome, new session state, the
items passed to `summarizeOld` (if it was called) and the prompt sent to the
completion collaborator (empty if generation was not reached). -/
structure NQResult where
  outcome : NQOutcome
  session : Session
  summarizerInput : Option (List HistoryItem)
  prompt : List Msg

/-- Embedding of `/api/next-question` (server.js lines 171-256).  `now` is the
clock at entry, `nowStamp` the clock at the `current_question_started_at`
stamp; `summarizerReply` and `modelReply` are the opaque collaborator replies
(`Except.error` models a thrown completion call, answered with HTTP 500).
Accessing an absent `history` on a started session would throw in JS and is
modelled as `crash`. -/
def nextQuestion (s : Session) (now nowStamp : Int) (summarizerReply : String)
    (modelReply : Except Unit String) : NQResult :=
  match s.profile with
  | none => ⟨.notStarted, s, none, []⟩
  | some p =>
    match s.history with
    | none => ⟨.crash, s, none, []⟩
    | some hist =>
      if endTimeOf s ≤ now ∧ 0 < hist.length ∧ cqTruthy s.current_question = false then
        ⟨.endSignal, s, none, []⟩
      else
        let built := buildPrompt s.personality p (secondsLeft s now) hist summarizerReply
        match modelReply with
        | .error _ => ⟨.genFailed, s, built.2, built.1⟩
        | .ok content =>
          let raw := jsTrim content
          let q := jsOr (jsLookup (extractJson raw) "question") (.str "Tell me about yourself.")
          ⟨.question q,
           { s with
             current_question := some q
             current_question_started_at := some nowStamp },
           built.2, built.1⟩

/-- Outcome of `/api/submit-answer`. -/
inductive SAOutcome where
  | invalidState : SAOutcome
  | answerRequired : SAOutcome
  | crash : SAOutcome
  | ok : Bool → SAOutcome

/-- Test for the accepting outcome of `/api/submit-answer`. -/
def SAOutcome.isOk : SAOutcome → Bool
  | .ok _ => true
  | _ => false

/-- Result of the submit-answer handler: HTTP outcome, new session state, and
the history item handed to the detached weakness-analysis task (if one was
spawned). -/
structure SAResult where
  outcome : SAOutcome
  session : Session
  analysis : Option HistoryItem

/-- Embedding of `/api/submit-answer` (server.js lines 259-315).  Guards
mirror the source order: state check (`!profile || !current_question`), then
the answer check; a successful submission builds the history item, pushes it,
spawns the weakness task with it, clears the pending question and reports
whether time is up. -/
def submitAnswer (s : Session) (answer : Option String) (now : Int) : SAResult :=
  if s.profile = none ∨ cqTruthy s.current_question = false then
    ⟨.invalidState, s, none⟩
  else
    match answer with
    | none => ⟨.answerRequired, s, none⟩
    | some a =>
      if jsTrim a == "" then ⟨.answerRequired, s, none⟩
      else
        match s.current_question, s.history with
        | some q, some hist =>
          let item : HistoryItem :=
            { question := q
              answer := jsTrim a
              weakness := "Analyzing..."
              askedAt := jsOrNullTime s.current_question_started_at
              answeredAt := now
              source := "speech_to_text" }
          ⟨.ok (endTimeOf s ≤ now),
           { s with
             history := some (hist ++ [item])
             current_question := none
             current_question_started_at := none },
           some item⟩
        | some _, none => ⟨.crash, s, none⟩
        | none, _ => ⟨.crash, s, none⟩

/-- Effect of the detached weakness-analysis task on the history (server.js
lines 295-301): `findIndex` on matching question and answer, overwriting that
entry's weakness.  JS `===` on a stored object question is reference equality;
distinct references are modelled as never equal, which only affects entries no
claim quantifies over. -/
def jsStrictEqb : Js → Js → Bool
  | .undefined, .undefined => true
  | .null, .null => true
  | .bool a, .bool b => a == b
  | .num a, .num b => a == b
  | .str a, .str b => a == b
  | _, _ => false

/-- First-match weakness overwrite performed by the analysis task. -/
def applyWeakness : List HistoryItem → Js → String → String → List HistoryItem
  | [], _, _, _ => []
  | h :: rest, q, a, w =>
    if jsStrictEqb h.question q && h.answer == a then
      { h with weakness := w } :: rest
    else h :: applyWeakness rest q a w

/-- Outcome of `/api/result`. -/
inductive ROutcome where
  | noData : ROutcome
  | failed : ROutcome
  | ok : Js → Js → Js → List HistoryItem → ROutcome

/-- Embedding of `/api/result` (server.js lines 332-371).  The verdict prompt
itself is opaque plumbing (a `JSON.stringify` of the parallel question, answer
and weakness sequences) and is not modelled; `modelReply` is the collaborator
reply, `Except.error` a thrown call (HTTP 500).  The reply is scraped with
`extractJson` and defaulted field-wise: `status || 'Fail'`,
`confidence ?? 0`, `reason || ''`. -/
def resultHandler (s : Session) (modelReply : Except Unit String) : ROutcome :=
  match s.history with
  | none => .noData
  | some hist =>
    if hist.length == 0 then .noData
    else
      match modelReply with
      | .error _ => .failed
      | .ok raw =>
        let result := extractJson raw
        .ok (jsOr (jsLookup result "status") (.str "Fail"))
          (jsNullish (jsLookup result "confidence") (.num 0))
          (jsOr (jsLookup result "reason") (.str ""))
          hist

/-- Default TTS voice (`OPENAI_TTS_VOICE`, environment default `coral`). -/
def ttsDefaultVoice : String := "coral"

/-- Default TTS speed (`OPENAI_TTS_SPEED`, environment default `1.0`,
modelled at integer precision). -/
def ttsDefaultSpeed : Int := 1

/-- Body of `/api/tts`; `speed` is `none` when missing or not coercible to a
finite number. -/
structure TtsReq where
  text : Option String
  voice : Option String
  speed : Option Int
  instructions : Option String

/-- Parameters of the speech call forwarded to the TTS collaborator. -/
structure TtsCall where
  input : String
  voice : String
  speed : Int
  instructions : String
deriving DecidableEq

/-- Outcome of `/api/tts`: a 400 before any collaborator contact, or the
forwarded call together with failure (HTTP 500) or audio success. -/
inductive TtsOutcome where
  | badRequest : TtsOutcome
  | ttsFailure : TtsCall → TtsOutcome
  | audioOk : TtsCall → TtsOutcome
deriving DecidableEq

/-- JS `v || d` on an optional string followed by use as a string. -/
def jsOrStr (v : Option String) (d : String) : String :=
  match v with
  | none => d
  | some s => if s == "" then d else s

/-- Embedding of `/api/tts` (server.js lines 113-150): trim the text and
reject empty input with HTTP 400; truncate to 4096 characters; resolve voice,
speed and instructions with their `||` defaults (the style default is derived
from the session personality); forward to the collaborator, mapping any thrown
error to the 500 `TTSFailure` reply. -/
def ttsHandler (s : Session) (req : TtsReq) (collab : Except Unit Unit) : TtsOutcome :=
  let textRaw := jsTrim (req.text.getD "")
  if textRaw == "" then .badRequest
  else
    let text := if 4096 < textRaw.length then jsSlice textRaw 4096 else textRaw
    let voice := jsTrim (jsOrStr req.voice ttsDefaultVoice)
    let speed := req.speed.getD ttsDefaultSpeed
    let personality := if s.personality == "" then "professional" else s.personality
    let instructions :=
      let i := jsTrim (req.instructions.getD "")
      if i == "" then
        "Speak like a " ++ personality ++ " interviewer. Natural pacing, slight pauses, not robotic."
      else i
    let call : TtsCall := ⟨text, voice, speed, instructions⟩
    match collab with
    | .error _ => .ttsFailure call
    | .ok _ => .audioOk call

/- Concrete fixtures for witnesses and counterexamples. -/

/-- Fresh (never-started) session: every field at its pre-start value. -/
def sessNew : Session := ⟨none, "", 0, 0, none, none, none⟩

/-- Sample history entry. -/
def itemA : HistoryItem :=
  ⟨Js.str "Q1", "A1", "Analyzing...", none, 1000, "speech_to_text"⟩

/-- Started session: one-minute interview begun at time 0, one answered
question, no pending question. -/
def sessOne : Session :=
  ⟨some ⟨"Backend Engineer", "ten years of backend work"⟩,
   "stern and no-nonsense", 0, 60, some [itemA], none, none⟩

/-- Started session with a pending question. -/
def sessPending : Session :=
  ⟨some ⟨"Backend Engineer", "ten years of backend work"⟩,
   "stern and no-nonsense", 0, 60, some [itemA], some (Js.str "Q2"), some 2000⟩

/-- Started session with empty history and no pending question. -/
def sessFresh : Session :=
  ⟨some ⟨"Backend Engineer", "short resume"⟩,
   "warm and encouraging", 0, 60, some [], none, none⟩

/- Helper lemmas. -/

/-- Monotonicity of flooring division by 1000 in the numerator. -/
theorem fdiv1000_mono {a b : Int} (h : a ≤ b) : a.fdiv 1000 ≤ b.fdiv 1000 := by
  rw [Int.fdiv_eq_ediv _ (by norm_num), Int.fdiv_eq_ediv _ (by norm_num)]
  exact Int.ediv_le_ediv (by norm_num) h

/-- The question value chosen by the next-question handler is always
JS-truthy: either the reply's truthy `question` field or the non-empty
default. -/
theorem jsTruthy_question_choice (v : Js) :
    jsTruthy (jsOr v (.str "Tell me about yourself.")) = true := by
  unfold jsOr
  split
  · assumption
  · rfl

/-- Weakness overwrite preserves the history length. -/
theorem applyWeakness_length (l : List HistoryItem) (q : Js) (a w : String) :
    (applyWeakness l q a w).length = l.length := by
  induction l with
  | nil => rfl
  | cons h rest ih =>
    unfold applyWeakness
    split
    · simp
    · simpa using ih

/-- C3: for every session and observation time, the remaining time reported by
`secondsLeft` is never negative, and for observation times `t1 ≤ t2` within
the same session the remaining time at `t2` is at most the remaining time at
`t1` (monotonically non-increasing). -/
theorem secondsLeft_nonneg_antitone (s : Session) (now t1 t2 : Int) :
    0 ≤ secondsLeft s now ∧ (t1 ≤ t2 → secondsLeft s t2 ≤ secondsLeft s t1) := by
  refine ⟨le_max_left 0 _, fun h => ?_⟩
  exact max_le_max (le_refl 0) (fdiv1000_mono (by omega))

/-- Witness for C3 on the one-minute fixture session at times 10500 and
20500. -/
theorem secondsLeft_nonneg_antitone_witness :
    0 ≤ secondsLeft sessOne 10500 ∧ secondsLeft sessOne 20500 ≤ secondsLeft sessOne 10500 :=
  ⟨(secondsLeft_nonneg_antitone sessOne 10500 10500 20500).1,
   (secondsLeft_nonneg_antitone sessOne 10500 10500 20500).2 (by decide)⟩

/-- C2: a successful answer submission always clears `current_question`, and a
submission made while `current_question` is null fails with InvalidState (HTTP
400) and leaves the session unchanged. -/
theorem submitAnswer_clears_current_question (s : Session) (a : Option String) (now : Int) :
    ((submitAnswer s a now).outcome.isOk = true →
      (submitAnswer s a now).session.current_question = none)
    ∧ (s.current_question = none →
        (submitAnswer s a now).outcome = .invalidState ∧ (submitAnswer s a now).session = s) := by
  constructor
  · unfold submitAnswer
    split
    · intro h; simp [SAOutcome.isOk] at h
    · split
      · intro h; simp [SAOutcome.isOk] at h
      · split
        · intro h; simp [SAOutcome.isOk] at h
        · split
          · intro _; rfl
          · intro h; simp [SAOutcome.isOk] at h
          · intro h; simp [SAOutcome.isOk] at h
  · intro hcq
    unfold submitAnswer
    rw [if_pos]
    · exact ⟨rfl, rfl⟩
    · right
      rw [hcq]
      rfl

/-- Witness for C2: submitting on the pending-question fixture clears the
question, and submitting on the no-question fixture fails with
InvalidState. -/
theorem submitAnswer_clears_current_question_witness :
    ((submitAnswer sessPending (some "my answer") 30000).outcome.isOk = true →
      (submitAnswer sessPending (some "my answer") 30000).session.current_question = none)
    ∧ ((submitAnswer sessOne (some "my answer") 30000).outcome = .invalidState
        ∧ (submitAnswer sessOne (some "my answer") 30000).session = sessOne) :=
  ⟨(submitAnswer_clears_current_question sessPending (some "my answer") 30000).1,
   (submitAnswer_clears_current_question sessOne (some "my answer") 30000).2 rfl⟩

/-- C10 (as stated): every rejected answer submission (no profile, no pending
current question, or missing/whitespace-only answer) answers HTTP 400
(InvalidState or AnswerRequired), leaves the session state entirely unchanged
and spawns no weakness-analysis task. -/
theorem submitAnswer_reject_no_side_effects (s : Session) (a : Option String) (now : Int)
    (hrej : s.profile = none ∨ cqTruthy s.current_question = false ∨ a = none
      ∨ (∀ x, a = some x → jsTrim x = "")) :
    ((submitAnswer s a now).outcome = .invalidState
      ∨ (submitAnswer s a now).outcome = .answerRequired)
    ∧ (submitAnswer s a now).session = s
    ∧ (submitAnswer s a now).analysis = none := by
  unfold submitAnswer
  rcases hrej with h | h | h | h
  · rw [if_pos (Or.inl h)]
    exact ⟨Or.inl rfl, rfl, rfl⟩
  · rw [if_pos (Or.inr h)]
    exact ⟨Or.inl rfl, rfl, rfl⟩
  · by_cases hg : s.profile = none ∨ cqTruthy s.current_question = false
    · rw [if_pos hg]
      exact ⟨Or.inl rfl, rfl, rfl⟩
    · rw [if_neg hg, h]
      exact ⟨Or.inr rfl, rfl, rfl⟩
  · by_cases hg : s.profile = none ∨ cqTruthy s.current_question = false
    · rw [if_pos hg]
      exact ⟨Or.inl rfl, rfl, rfl⟩
    · rw [if_neg hg]
      cases a with
      | none => exact ⟨Or.inr rfl, rfl, rfl⟩
      | some x =>
        have hx : jsTrim x = "" := h x rfl
        simp only [hx]
        exact ⟨Or.inr rfl, rfl, rfl⟩

/-- Witness for C10: a whitespace-only answer on the pending-question fixture
is rejected without side effects. -/
theorem submitAnswer_reject_no_side_effects_witness :
    (((submitAnswer sessPending (some "   ") 30000).outcome = .invalidState
      ∨ (submitAnswer sessPending (some "   ") 30000).outcome = .answerRequired)
    ∧ (submitAnswer sessPending (some "   ") 30000).session = sessPending
    ∧ (submitAnswer sessPending (some "   ") 30000).analysis = none) :=
  submitAnswer_reject_no_side_effects sessPending (some "   ") 30000
    (Or.inr (Or.inr (Or.inr (fun x hx => by cases hx; rfl))))

/- C6: the start-validation claim. -/

/-- JS falsiness of an optional string body field: absent or empty. -/
def strFalsy : Option String → Bool
  | none => true
  | some t => t == ""

/-- Invalidity of the duration field: absent/non-numeric or non-positive. -/
def durBad : Option Int → Bool
  | none => true
  | some d => decide (d ≤ 0)

/-- Counterexample to C6: a start request whose `type` is present but the
empty string, with `resume` present and duration 5, is rejected with
InvalidInput, although the claim's "if and only if" (missing type, missing
resume, or bad duration) predicts success. -/
theorem startHandler_empty_type_counterexample :
    (StartReq.mk (some "") (some "ten years of backend work") (some 5)).type = some ""
    ∧ (StartReq.mk (some "") (some "ten years of backend work") (some 5)).resume ≠ none
    ∧ (0 : Int) < 5
    ∧ (startHandler ⟨some "", some "ten years of backend work", some 5⟩ 0
        "stern and no-nonsense" sessNew).1 = .invalidInput := by
  refine ⟨rfl, by decide, by decide, rfl⟩

/-- C6 (amended): a start request fails with InvalidInput exactly when `type`
is missing or empty, `resume` is missing or empty, or `duration` is missing,
non-numeric or non-positive, and a failed start leaves the session unchanged;
otherwise it succeeds, setting `start_time` to now, `duration_seconds` to the
minute duration times 60, the drawn personality, an empty history and a null
`current_question`. -/
theorem startHandler_spec (req : StartReq) (now : Int) (pers : String) (s : Session) :
    ((startHandler req now pers s).1 = .invalidInput ↔
      (strFalsy req.type || strFalsy req.resume || durBad req.duration) = true)
    ∧ ((startHandler req now pers s).1 = .invalidInput → (startHandler req now pers s).2 = s)
    ∧ (∀ t r d, req.type = some t → req.resume = some r → req.duration = some d →
        t ≠ "" → r ≠ "" → 0 < d →
        (startHandler req now pers s).1 = .success
        ∧ (startHandler req now pers s).2 =
            { s with
              profile := some ⟨t, r⟩
              duration_seconds := d * 60
              start_time := now
              personality := pers
              history := some []
              current_question := none }) := by
  obtain ⟨ot, or_, od⟩ := req
  refine ⟨?_, ?_, ?_⟩
  · cases ot with
    | none => simp [startHandler, strFalsy]
    | some t =>
      cases or_ with
      | none => simp [startHandler, strFalsy]
      | some r =>
        cases od with
        | none => simp [startHandler, strFalsy, durBad]
        | some d =>
          simp only [startHandler, strFalsy, durBad]
          by_cases h : (t == "" || r == "" || decide (d ≤ 0)) = true
          · rw [if_pos h]
            simpa using h
          · rw [if_neg h]
            simp only [Bool.or_eq_true] at h ⊢
            constructor
            · intro hc; exact StartOutcome.noConfusion hc
            · intro hc; exact absurd hc h
  · cases ot with
    | none => intro _; rfl
    | some t =>
      cases or_ with
      | none => intro _; rfl
      | some r =>
        cases od with
        | none => intro _; rfl
        | some d =>
          simp only [startHandler]
          split
          · intro _; rfl
          · intro hc; exact StartOutcome.noConfusion hc
  · intro t r d ht hr hd htne hrne hdpos
    cases ht; cases hr; cases hd
    have hcond : (t == "" || r == "" || decide (d ≤ 0)) = false := by
      simp [htne, hrne]
      omega
    simp only [startHandler, hcond, Bool.false_eq_true, if_false]
    exact ⟨trivial, trivial⟩

/-- Witness for C6 (amended): a fully valid ten-minute start request succeeds
and initializes the session fields. -/
theorem startHandler_spec_witness :
    (startHandler ⟨some "Backend Engineer", some "ten years of backend work", some 10⟩ 99
        "warm and encouraging" sessNew).1 = .success
    ∧ (startHandler ⟨some "Backend Engineer", some "ten years of backend work", some 10⟩ 99
        "warm and encouraging" sessNew).2 =
        { sessNew with
          profile := some ⟨"Backend Engineer", "ten years of backend work"⟩
          duration_seconds := 600
          start_time := 99
          personality := "warm and encouraging"
          history := some []
          current_question := none } :=
  (startHandler_spec ⟨some "Backend Engineer", some "ten years of backend work", some 10⟩ 99
      "warm and encouraging" sessNew).2.2 "Backend Engineer" "ten years of backend work" 10
    rfl rfl rfl (by decide) (by decide) (by decide)

/-- Prompt lists built for question generation always end with the final user
instruction, hence are non-empty. -/
theorem buildPrompt_ne_nil (pers : String) (p : Profile) (tr : Int)
    (hist : List HistoryItem) (sr : String) : (buildPrompt pers p tr hist sr).1 ≠ [] := by
  unfold buildPrompt
  simp

/-- C1: on a started session, once the interview has expired, the history is
non-empty and no question is pending, a next-question request returns the end
signal without generating or storing anything (session, summarizer and prompt
untouched); if any of the three conditions fails the handler proceeds to
question generation instead (a question on a successful collaborator call, the
500 outcome on a failed one).  The `hwf` hypothesis restricts attention to
sessions whose stored pending question is JS-truthy, which is every session
the handlers produce. -/
theorem nextQuestion_end_signal (s : Session) (p : Profile) (h : List HistoryItem)
    (now nowStamp : Int) (sr : String) (mr : Except Unit String)
    (hp : s.profile = some p) (hh : s.history = some h)
    (hwf : s.current_question = none ∨ ∃ q, s.current_question = some q ∧ jsTruthy q = true) :
    (endTimeOf s ≤ now → h ≠ [] → s.current_question = none →
      nextQuestion s now nowStamp sr mr = ⟨.endSignal, s, none, []⟩)
    ∧ ((now < endTimeOf s ∨ h = [] ∨ s.current_question ≠ none) →
        ((∃ q, (nextQuestion s now nowStamp sr mr).outcome = .question q)
          ∨ (nextQuestion s now nowStamp sr mr).outcome = .genFailed)
        ∧ (nextQuestion s now nowStamp sr mr).prompt ≠ []) := by
  constructor
  · intro hexp hne hcq
    simp only [nextQuestion, hp, hh]
    rw [if_pos ⟨hexp, List.length_pos.mpr hne, by rw [hcq]; rfl⟩]
  · intro hfail
    have hcond : ¬ (endTimeOf s ≤ now ∧ 0 < h.length ∧ cqTruthy s.current_question = false) := by
      intro hc
      rcases hfail with h1 | h1 | h1
      · exact absurd hc.1 (not_le.mpr h1)
      · rw [h1] at hc
        simp at hc
      · rcases hwf with hq | ⟨q, hq, htr⟩
        · exact h1 hq
        · rw [hq] at hc
          simp [cqTruthy, htr] at hc
    simp only [nextQuestion, hp, hh]
    rw [if_neg hcond]
    cases mr with
    | error e => exact ⟨Or.inr rfl, buildPrompt_ne_nil _ _ _ _ _⟩
    | ok content => exact ⟨Or.inl ⟨_, rfl⟩, buildPrompt_ne_nil _ _ _ _ _⟩

/-- Witness for C1: at 61 seconds into the one-minute fixture, a next-question
request with non-empty history and no pending question answers with the end
signal and changes nothing, while the same request with a pending question
proceeds to generation. -/
theorem nextQuestion_end_signal_witness :
    nextQuestion sessOne 61000 61000 "sum" (.ok "raw") = ⟨.endSignal, sessOne, none, []⟩
    ∧ (((∃ q, (nextQuestion sessPending 61000 61000 "sum" (.ok "raw")).outcome = .question q)
        ∨ (nextQuestion sessPending 61000 61000 "sum" (.ok "raw")).outcome = .genFailed)
       ∧ (nextQuestion sessPending 61000 61000 "sum" (.ok "raw")).prompt ≠ []) :=
  ⟨(nextQuestion_end_signal sessOne ⟨"Backend Engineer", "ten years of backend work"⟩ [itemA]
      61000 61000 "sum" (.ok "raw") rfl rfl (Or.inl rfl)).1 (by decide)
      (fun hx => List.noConfusion hx) rfl,
   (nextQuestion_end_signal sessPending ⟨"Backend Engineer", "ten years of backend work"⟩ [itemA]
      61000 61000 "sum" (.ok "raw") rfl rfl (Or.inr ⟨Js.str "Q2", rfl, rfl⟩)).2
     (Or.inr (Or.inr (fun hx => Option.noConfusion hx)))⟩

/-- C8: a successful answer submission appends exactly one item to the
history (length grows by exactly one); a rejected submission leaves the
history untouched; the detached weakness-analysis task never changes the
history length; and a next-question request never changes the stored
history. -/
theorem submitAnswer_appends_exactly_one (s : Session) (a : Option String) (now : Int)
    (h : List HistoryItem) (hh : s.history = some h) :
    ((submitAnswer s a now).outcome.isOk = true →
      ∃ item, (submitAnswer s a now).session.history = some (h ++ [item])
        ∧ (h ++ [item]).length = h.length + 1)
    ∧ ((submitAnswer s a now).outcome.isOk = false →
        (submitAnswer s a now).session.history = s.history)
    ∧ (∀ l q aa w, (applyWeakness l q aa w).length = l.length)
    ∧ (∀ now2 ns sr mr, (nextQuestion s now2 ns sr mr).session.history = s.history) := by
  refine ⟨?_, ?_, fun l q aa w => applyWeakness_length l q aa w, ?_⟩
  · unfold submitAnswer
    split
    · intro hok; simp [SAOutcome.isOk] at hok
    · split
      · intro hok; simp [SAOutcome.isOk] at hok
      · split
        · intro hok; simp [SAOutcome.isOk] at hok
        · split
          · intro hok
            rename_i hcqeq hhisteq
            rw [hh] at hhisteq
            injection hhisteq with he
            subst he
            exact ⟨_, rfl, by simp⟩
          · intro hok; simp [SAOutcome.isOk] at hok
          · intro hok; simp [SAOutcome.isOk] at hok
  · unfold submitAnswer
    split
    · intro _; rfl
    · split
      · intro _; rfl
      · split
        · intro _; rfl
        · split
          · intro hok; simp [SAOutcome.isOk] at hok
          · intro _; rfl
          · intro _; rfl
  · intro now2 ns sr mr
    cases hp : s.profile with
    | none => simp [nextQuestion, hp]
    | some p =>
      cases hh2 : s.history with
      | none => simp [nextQuestion, hp, hh2]
      | some hist =>
        simp only [nextQuestion, hp, hh2]
        split
        · exact hh2
        · cases mr with
          | error e => exact hh2
          | ok c => rfl

/-- Witness for C8: answering the pending question of the fixture appends one
item. -/
theorem submitAnswer_appends_exactly_one_witness :
    ∃ item, (submitAnswer sessPending (some "my answer") 30000).session.history
        = some ([itemA] ++ [item])
      ∧ ([itemA] ++ [item]).length = [itemA].length + 1 :=
  (submitAnswer_appends_exactly_one sessPending (some "my answer") 30000 [itemA] rfl).1 rfl

/-- Prompt assembly with more than five history entries: a summary message
over all but the last five items, then the raw block of exactly the last five
items. -/
theorem buildPrompt_compaction (pers : String) (p : Profile) (tr : Int)
    (hist : List HistoryItem) (sr : String) (h5 : 5 < hist.length) :
    buildPrompt pers p tr hist sr =
      ([⟨"system", sysContent pers p.type tr⟩,
        ⟨"user", userProfileContent p.resume
          (decide (wordsCount p.resume < 60) || decide (wordsCount p.type < 2))⟩,
        ⟨"user", "Brief summary of earlier exchanges:\n"
          ++ summarizeOld (hist.take (hist.length - 5)) sr⟩,
        ⟨"user", "Last five Q&A and weaknesses:\n" ++ renderBlock (hist.drop (hist.length - 5))⟩,
        ⟨"user", "Ask the next question now."⟩],
       some (hist.take (hist.length - 5))) := by
  have h0 : 0 < hist.length := by omega
  simp [buildPrompt, h0, h5]

/-- C4: a next-question request on a (started, unexpired) session whose
history exceeds five entries hands exactly the items older than the last five
to the summarizer, and the prompt sent to the completion collaborator is the
system message, the profile message, one summary message covering those older
items, the raw block of exactly the last five items, and the final
instruction — no raw item older than the last five ever appears. -/
theorem nextQuestion_summarizes_old_history (s : Session) (p : Profile) (h : List HistoryItem)
    (now nowStamp : Int) (sr : String) (mr : Except Unit String)
    (hp : s.profile = some p) (hh : s.history = some h)
    (h5 : 5 < h.length) (hexp : now < endTimeOf s) :
    (nextQuestion s now nowStamp sr mr).summarizerInput = some (h.take (h.length - 5))
    ∧ (nextQuestion s now nowStamp sr mr).prompt =
        [⟨"system", sysContent s.personality p.type (secondsLeft s now)⟩,
         ⟨"user", userProfileContent p.resume
            (decide (wordsCount p.resume < 60) || decide (wordsCount p.type < 2))⟩,
         ⟨"user", "Brief summary of earlier exchanges:\n"
            ++ summarizeOld (h.take (h.length - 5)) sr⟩,
         ⟨"user", "Last five Q&A and weaknesses:\n" ++ renderBlock (h.drop (h.length - 5))⟩,
         ⟨"user", "Ask the next question now."⟩] := by
  have hcond : ¬ (endTimeOf s ≤ now ∧ 0 < h.length ∧ cqTruthy s.current_question = false) := by
    intro hc
    exact absurd hc.1 (not_le.mpr hexp)
  simp only [nextQuestion, hp, hh]
  rw [if_neg hcond]
  cases mr with
  | error e =>
    rw [buildPrompt_compaction s.personality p (secondsLeft s now) h sr h5]
    exact ⟨rfl, rfl⟩
  | ok content =>
    rw [buildPrompt_compaction s.personality p (secondsLeft s now) h sr h5]
    exact ⟨rfl, rfl⟩

/-- Started ten-minute session with six answered questions. -/
def sessSix : Session :=
  ⟨some ⟨"Backend Engineer", "ten years of backend work"⟩,
   "dryly sarcastic", 0, 600, some [itemA, itemA, itemA, itemA, itemA, itemA], none, none⟩

/-- Witness for C4 on the six-item fixture at one second in: the summarizer
receives the first item and the prompt carries the summary plus the last five
raw items. -/
theorem nextQuestion_summarizes_old_history_witness :
    (nextQuestion sessSix 1000 1000 "they are doing fine" (.ok "raw")).summarizerInput
        = some ([itemA, itemA, itemA, itemA, itemA, itemA].take 1)
    ∧ (nextQuestion sessSix 1000 1000 "they are doing fine" (.ok "raw")).prompt =
        [⟨"system", sysContent sessSix.personality "Backend Engineer" (secondsLeft sessSix 1000)⟩,
         ⟨"user", userProfileContent "ten years of backend work"
            (decide (wordsCount "ten years of backend work" < 60)
              || decide (wordsCount "Backend Engineer" < 2))⟩,
         ⟨"user", "Brief summary of earlier exchanges:\n"
            ++ summarizeOld ([itemA, itemA, itemA, itemA, itemA, itemA].take 1)
                "they are doing fine"⟩,
         ⟨"user", "Last five Q&A and weaknesses:\n"
            ++ renderBlock ([itemA, itemA, itemA, itemA, itemA, itemA].drop 1)⟩,
         ⟨"user", "Ask the next question now."⟩] :=
  nextQuestion_summarizes_old_history sessSix
    ⟨"Backend Engineer", "ten years of backend work"⟩
    [itemA, itemA, itemA, itemA, itemA, itemA] 1000 1000 "they are doing fine" (.ok "raw")
    rfl rfl (by decide) (by decide)

/-- C5: a result request with absent or empty history fails with NoData (HTTP
400); with non-empty history, a collaborator reply in which no status,
confidence or reason field can be scraped (no parseable JSON object, or the
fields missing) is answered fail-closed with status "Fail", confidence 0 and
empty reason. -/
theorem resultHandler_fail_closed (s : Session) (mr : Except Unit String) (raw : String)
    (h : List HistoryItem) :
    ((s.history = none ∨ s.history = some []) → resultHandler s mr = .noData)
    ∧ (s.history = some h → h ≠ [] → mr = .ok raw →
        jsLookup (extractJson raw) "status" = .undefined →
        jsLookup (extractJson raw) "confidence" = .undefined →
        jsLookup (extractJson raw) "reason" = .undefined →
        resultHandler s mr = .ok (.str "Fail") (.num 0) (.str "") h) := by
  constructor
  · intro hcase
    rcases hcase with h1 | h1
    · simp [resultHandler, h1]
    · simp [resultHandler, h1]
  · intro hh hne hmr hs hc hr
    subst hmr
    have hlen : (h.length == 0) = false := by
      simp [List.length_eq_zero]
      exact hne
    simp only [resultHandler, hh, hlen, Bool.false_eq_true, if_false]
    rw [hs, hc, hr]
    rfl

/-- Witness for C5: a result request on the one-item fixture with a reply the
brace regex cannot match defaults to Fail with confidence 0. -/
theorem resultHandler_fail_closed_witness :
    resultHandler sessOne (.ok "the model ignored the instructions")
      = .ok (.str "Fail") (.num 0) (.str "") [itemA] :=
  (resultHandler_fail_closed sessOne (.ok "the model ignored the instructions")
      "the model ignored the instructions" [itemA]).2
    rfl (fun hx => List.noConfusion hx) rfl rfl rfl rfl

/-- Counterexample to C7: on a reply whose `question` field is the JSON number
5, the handler stores and returns the number itself, which is not a string (so
not a non-empty question string as claimed). -/
theorem nextQuestion_nonstring_question_counterexample :
    (nextQuestion sessFresh 0 0 "" (.ok "\x7b\"question\": 5\x7d")).outcome
        = .question (.num 5)
    ∧ Js.isStr (.num 5) = false
    ∧ (nextQuestion sessFresh 0 0 "" (.ok "\x7b\"question\": 5\x7d")).session.current_question
        = some (.num 5) :=
  ⟨rfl, rfl, rfl⟩

/-- C7 (amended): whenever question generation is reached and the collaborator
call returns, the value used is the reply's `question` field if that is
JS-truthy and the fixed default "Tell me about yourself." otherwise (in
particular whenever the reply has no parseable JSON object or lacks the
field); the value is returned and stored as `current_question` with
`current_question_started_at` stamped, it is always JS-truthy, and whenever it
is a string it is non-empty.  A truthy non-string `question` value is passed
through as-is. -/
theorem nextQuestion_question_fallback (s : Session) (p : Profile) (h : List HistoryItem)
    (now nowStamp : Int) (sr content : String) (q : Js)
    (hp : s.profile = some p) (hh : s.history = some h)
    (hgen : ¬ (endTimeOf s ≤ now ∧ 0 < h.length ∧ cqTruthy s.current_question = false))
    (hq : q = jsOr (jsLookup (extractJson (jsTrim content)) "question")
        (.str "Tell me about yourself.")) :
    (nextQuestion s now nowStamp sr (.ok content)).outcome = .question q
    ∧ (nextQuestion s now nowStamp sr (.ok content)).session =
        { s with current_question := some q, current_question_started_at := some nowStamp }
    ∧ jsTruthy q = true
    ∧ (jsTruthy (jsLookup (extractJson (jsTrim content)) "question") = false →
        q = .str "Tell me about yourself.")
    ∧ (∀ t, q = .str t → t ≠ "") := by
  subst hq
  refine ⟨?_, ?_, jsTruthy_question_choice _, ?_, ?_⟩
  · simp only [nextQuestion, hp, hh]
    rw [if_neg hgen]
  · simp only [nextQuestion, hp, hh]
    rw [if_neg hgen]
  · intro hf
    unfold jsOr
    rw [if_neg]
    rw [hf]
    exact Bool.false_ne_true
  · intro t ht hteq
    have htr := jsTruthy_question_choice
      (jsLookup (extractJson (jsTrim content)) "question")
    rw [ht, hteq] at htr
    simp [jsTruthy] at htr

/-- Witness for C7 (amended): a reply with no JSON object falls back to the
default question, stores it and stamps the start time. -/
theorem nextQuestion_question_fallback_witness :
    (nextQuestion sessFresh 500 600 "" (.ok "no json at all")).outcome
        = .question (.str "Tell me about yourself.")
    ∧ (nextQuestion sessFresh 500 600 "" (.ok "no json at all")).session =
        { sessFresh with
          current_question := some (.str "Tell me about yourself.")
          current_question_started_at := some 600 }
    ∧ jsTruthy (Js.str "Tell me about yourself.") = true
    ∧ (jsTruthy (jsLookup (extractJson (jsTrim "no json at all")) "question") = false →
        Js.str "Tell me about yourself." = .str "Tell me about yourself.")
    ∧ (∀ t, Js.str "Tell me about yourself." = .str t → t ≠ "") :=
  nextQuestion_question_fallback sessFresh ⟨"Backend Engineer", "short resume"⟩ [] 500 600
    "" "no json at all" (.str "Tell me about yourself.") rfl rfl
    (by simp) rfl

/-- Truncation to the first `n` characters yields a string of length at most
`n`. -/
theorem jsSlice_length_le (s : String) (n : Nat) : (jsSlice s n).length ≤ n := by
  have h : (jsSlice s n).length = (s.toList.take n).length := rfl
  rw [h, List.length_take]
  exact min_le_left _ _

/-- C9: a TTS request whose text is missing or trims to the empty string is
rejected with HTTP 400 before any collaborator contact; otherwise the call is
forwarded with the trimmed text truncated to at most 4096 characters (longer
text cut to its first 4096 characters, shorter text passed unchanged), and
any collaborator error is answered with the 500 TTSFailure reply. -/
theorem ttsHandler_spec (s : Session) (req : TtsReq) (collab : Except Unit Unit) :
    (jsTrim (req.text.getD "") = "" → ttsHandler s req collab = .badRequest)
    ∧ (jsTrim (req.text.getD "") ≠ "" →
        ∃ call : TtsCall,
          (∀ e, collab = .error e → ttsHandler s req collab = .ttsFailure call)
          ∧ (∀ u, collab = .ok u → ttsHandler s req collab = .audioOk call)
          ∧ call.input.length ≤ 4096
          ∧ ((jsTrim (req.text.getD "")).length ≤ 4096 →
              call.input = jsTrim (req.text.getD ""))
          ∧ (4096 < (jsTrim (req.text.getD "")).length →
              call.input = jsSlice (jsTrim (req.text.getD "")) 4096)) := by
  constructor
  · intro h0
    unfold ttsHandler
    rw [if_pos]
    rw [h0]
    rfl
  · intro hne
    have hcnd : (jsTrim (req.text.getD "") == "") = false := by
      simpa using hne
    refine ⟨⟨if 4096 < (jsTrim (req.text.getD "")).length
        then jsSlice (jsTrim (req.text.getD "")) 4096 else jsTrim (req.text.getD ""),
      jsTrim (jsOrStr req.voice ttsDefaultVoice),
      req.speed.getD ttsDefaultSpeed,
      (fun i => if i == "" then
          "Speak like a " ++ (if s.personality == "" then "professional" else s.personality)
            ++ " interviewer. Natural pacing, slight pauses, not robotic."
        else i) (jsTrim (req.instructions.getD ""))⟩, ?_, ?_, ?_, ?_, ?_⟩
    · intro e hc
      subst hc
      simp only [ttsHandler, hcnd, Bool.false_eq_true, if_false]
    · intro u hc
      subst hc
      simp only [ttsHandler, hcnd, Bool.false_eq_true, if_false]
    · dsimp only
      by_cases hl : 4096 < (jsTrim (req.text.getD "")).length
      · rw [if_pos hl]
        exact jsSlice_length_le _ _
      · rw [if_neg hl]
        omega
    · intro hle
      dsimp only
      rw [if_neg (by omega)]
    · intro hgt
      dsimp only
      rw [if_pos hgt]

/-- Witness for C9: a short text with a failing collaborator yields the 500
TTSFailure with the text forwarded unchanged. -/
theorem ttsHandler_spec_witness :
    ∃ call : TtsCall,
      (∀ e, (Except.error e : Except Unit Unit) = .error e →
        ttsHandler sessOne ⟨some "hello there", none, none, none⟩ (.error e) = .ttsFailure call)
      ∧ (∀ u, (Except.error () : Except Unit Unit) = .ok u →
        ttsHandler sessOne ⟨some "hello there", none, none, none⟩ (.error ()) = .audioOk call)
      ∧ call.input.length ≤ 4096
      ∧ ((jsTrim ((some "hello there" : Option String).getD "")).length ≤ 4096 →
          call.input = jsTrim ((some "hello there" : Option String).getD ""))
      ∧ (4096 < (jsTrim ((some "hello there" : Option String).getD "")).length →
          call.input = jsSlice (jsTrim ((some "hello there" : Option String).getD "")) 4096) := by
  have := (ttsHandler_spec sessOne ⟨some "hello there", none, none, none⟩ (.error ())).2
    (by decide)
  obtain ⟨call, h1, h2, h3, h4, h5⟩ := this
  exact ⟨call, fun e he => h1 e rfl, h2, h3, h4, h5⟩

/-- Well-formedness of the pending-question slot: either no question is
pending or the stored value is JS-truthy.  The hypotheses of the end-signal
and generation theorems assume this shape; the following lemmas show every
handler maintains it. -/
def cqWF (s : Session) : Prop :=
  s.current_question = none ∨ ∃ q, s.current_question = some q ∧ jsTruthy q = true

/-- A fresh session satisfies the pending-question invariant. -/
theorem cqWF_sessNew : cqWF sessNew := Or.inl rfl

/-- The start handler maintains the pending-question invariant. -/
theorem cqWF_startHandler (req : StartReq) (now : Int) (pers : String) (s : Session)
    (h : cqWF s) : cqWF (startHandler req now pers s).2 := by
  obtain ⟨ot, orr, od⟩ := req
  cases ot with
  | none => exact h
  | some t =>
    cases orr with
    | none => exact h
    | some r =>
      cases od with
      | none => exact h
      | some d =>
        simp only [startHandler]
        split
        · exact h
        · exact Or.inl rfl

/-- The next-question handler maintains the pending-question invariant: the
stored question is the truthy field of the reply or the non-empty default. -/
theorem cqWF_nextQuestion (s : Session) (now ns : Int) (sr : String)
    (mr : Except Unit String) (h : cqWF s) : cqWF (nextQuestion s now ns sr mr).session := by
  cases hp : s.profile with
  | none => simp only [nextQuestion, hp]; exact h
  | some p =>
    cases hh : s.history with
    | none => simp only [nextQuestion, hp, hh]; exact h
    | some hist =>
      simp only [nextQuestion, hp, hh]
      split
      · exact h
      · cases mr with
        | error e => exact h
        | ok c => exact Or.inr ⟨_, rfl, jsTruthy_question_choice _⟩

/-- The submit-answer handler maintains the pending-question invariant (a
successful submission clears the slot). -/
theorem cqWF_submitAnswer (s : Session) (a : Option String) (now : Int)
    (h : cqWF s) : cqWF (submitAnswer s a now).session := by
  unfold submitAnswer
  split
  · exact h
  · split
    · exact h
    · split
      · exact h
      · split
        · exact Or.inl rfl
        · exact h
        · exact h
